import Mathlib

/-!
EC11 rotary encoder component (`components/ec11_encoder/ec11_encoder.c`)

A shallow embedding of the encoder component: the file-scope variables of
`ec11_encoder.c` become the fields of `State`, every C function becomes a pure
function on `State`, and the values the C code obtains from the platform (the
timer, the GPIO levels, the return codes of the GPIO driver) are explicit
arguments.

Machine integers:
* `int16_t` values are `Int`; every store of an `int` expression into an
  `int16_t` object goes through `wrap16` (two's complement conversion);
* `uint8_t` / `uint32_t` values are `Nat`, reduced `% 256` / `% 4294967296`
  where the C code converts or wraps.

Execution model: every C function is one indivisible state transformer, and a
run is a sequence of such calls. Interleavings inside a function body (two
handler invocations racing on `encoder_count++`, a poll reading the counter in
the middle of a store) are outside this model.
-/

namespace Ec11

/-! ## Machine arithmetic -/

/-- Conversion of a C `int` value to `int16_t`: reduction modulo `2^16` into
`[-32768, 32767]`. -/
def wrap16 (x : Int) : Int := (x + 32768) % 65536 - 32768

/-- Range of an `int16_t` object. -/
def in_int16 (x : Int) : Prop := -32768 ≤ x ∧ x ≤ 32767

instance (x : Int) : Decidable (in_int16 x) :=
  inferInstanceAs (Decidable (-32768 ≤ x ∧ x ≤ 32767))

/-! ## ESP-IDF and LVGL constants used by the component -/

/-- C type `esp_err_t` (an `int`). -/
abbrev esp_err_t := Int

/-- Value of `ESP_OK` in ESP-IDF `esp_err.h`. -/
def ESP_OK : esp_err_t := 0

/-- Value of `ESP_ERR_INVALID_ARG` in ESP-IDF `esp_err.h`. -/
def ESP_ERR_INVALID_ARG : esp_err_t := 0x102

/-- Value of `ESP_ERR_INVALID_STATE` in ESP-IDF `esp_err.h`. -/
def ESP_ERR_INVALID_STATE : esp_err_t := 0x103

/-- LVGL `lv_indev_state_t`. -/
inductive lv_indev_state_t where
  | LV_INDEV_STATE_RELEASED
  | LV_INDEV_STATE_PRESSED
deriving DecidableEq, Repr

/-- The two fields of LVGL `lv_indev_data_t` that `encoder_read_cb` writes. -/
structure lv_indev_data_t where
  enc_diff : Int
  state : lv_indev_state_t
deriving DecidableEq, Repr

/-! ## Data model -/

/-- Header `ec11_encoder.h`, lines 37-43: `ec11_encoder_config_t`. -/
structure ec11_encoder_config_t where
  gpio_a : Int
  gpio_b : Int
  gpio_button : Int
  button_active_low : Bool
  debounce_ms : Nat
deriving DecidableEq, Repr

/-- The file-scope variables of `ec11_encoder.c` (lines 19-25) together with
the function-local `static int16_t last_encoder_count` of `encoder_read_cb`
(line 62). -/
structure State where
  encoder_count : Int
  encoder_last_state : Nat
  last_interrupt_time : Nat
  encoder_config : ec11_encoder_config_t
  encoder_initialized : Bool
  last_encoder_count : Int
deriving DecidableEq, Repr

/-- State at program start: every static object is zero-initialised. -/
def boot : State :=
  { encoder_count := 0
    encoder_last_state := 0
    last_interrupt_time := 0
    encoder_config :=
      { gpio_a := 0, gpio_b := 0, gpio_button := 0, button_active_low := false, debounce_ms := 0 }
    encoder_initialized := false
    last_encoder_count := 0 }

/-! ## Quadrature decoder -/

/-- Lines 37-39 (and again 131-133): read both channels with `gpio_get_level`,
store each in a `uint8_t`, combine as `(a << 1) | b` into a `uint8_t`. The
argument `gpio_get_level` gives the level the driver reports for each pin at the
moment of the call. -/
def read_state (cfg : ec11_encoder_config_t) (gpio_get_level : Int → Nat) : Nat :=
  let a := gpio_get_level cfg.gpio_a % 256
  let b := gpio_get_level cfg.gpio_b % 256
  ((a <<< 1) ||| b) % 256

/-- Line 30: `uint32_t current_time = esp_timer_get_time() / 1000`, where
`now_us` is the value returned by `esp_timer_get_time()` (microseconds since
boot). -/
def current_time_ms (now_us : Nat) : Nat := (now_us / 1000) % 4294967296

/-- Line 33, left operand: `current_time - last_interrupt_time` in `uint32_t`
arithmetic. -/
def elapsed_ms (s : State) (now_us : Nat) : Nat :=
  (current_time_ms now_us + 4294967296 - s.last_interrupt_time % 4294967296) % 4294967296

/-- Lines 28-57: `encoder_isr_handler`. -/
def encoder_isr_handler (s : State) (now_us : Nat) (gpio_get_level : Int → Nat) : State :=
  let current_time := current_time_ms now_us
  if elapsed_ms s now_us < s.encoder_config.debounce_ms then
    s
  else
    let current_state := read_state s.encoder_config gpio_get_level
    if s.encoder_last_state = 3 then
      if current_state = 1 then
        { s with
          encoder_count := wrap16 (s.encoder_count + 1)
          last_interrupt_time := current_time
          encoder_last_state := current_state }
      else if current_state = 2 then
        { s with
          encoder_count := wrap16 (s.encoder_count - 1)
          last_interrupt_time := current_time
          encoder_last_state := current_state }
      else
        { s with encoder_last_state := current_state }
    else
      { s with encoder_last_state := current_state }

/-! ## Poll bridge -/

/-- Lines 60-75: `encoder_read_cb`. Returns the new state (only
`last_encoder_count` changes) and the two fields written into `data`. -/
def encoder_read_cb (s : State) (gpio_get_level : Int → Nat) : State × lv_indev_data_t :=
  let current_count := s.encoder_count
  let diff := wrap16 (current_count - s.last_encoder_count)
  let button_pressed : Bool :=
    gpio_get_level s.encoder_config.gpio_button
      == (if s.encoder_config.button_active_low then 0 else 1)
  ({ s with last_encoder_count := current_count },
   { enc_diff := diff
     state :=
       if button_pressed then lv_indev_state_t.LV_INDEV_STATE_PRESSED
       else lv_indev_state_t.LV_INDEV_STATE_RELEASED })

/-! ## Lifecycle and query operations -/

/-- Values the platform hands back during `ec11_encoder_init`: the return codes
of the two `gpio_config` calls, of `gpio_install_isr_service`, of the two
`gpio_isr_handler_add` calls, and the pin levels seen by `gpio_get_level`. -/
structure Platform where
  gpio_config_encoder : esp_err_t
  gpio_config_button : esp_err_t
  gpio_install_isr_service : esp_err_t
  gpio_isr_handler_add_a : esp_err_t
  gpio_isr_handler_add_b : esp_err_t
  gpio_get_level : Int → Nat

/-- Lines 77-142: `ec11_encoder_init`. The argument `config` is `none` for a
NULL pointer. The result is `none` when an `ESP_ERROR_CHECK` aborts the program,
otherwise the returned code and the state left behind. -/
def ec11_encoder_init (s : State) (config : Option ec11_encoder_config_t) (p : Platform) :
    Option (esp_err_t × State) :=
  match config with
  | none => some (ESP_ERR_INVALID_ARG, s)
  | some c =>
    if s.encoder_initialized then
      some (ESP_OK, s)
    else
      let cfg : ec11_encoder_config_t :=
        if c.debounce_ms = 0 then { c with debounce_ms := 5 } else c
      if p.gpio_config_encoder ≠ ESP_OK then none
      else if p.gpio_config_button ≠ ESP_OK then none
      else if p.gpio_install_isr_service ≠ ESP_OK
          ∧ p.gpio_install_isr_service ≠ ESP_ERR_INVALID_STATE then none
      else if p.gpio_isr_handler_add_a ≠ ESP_OK then none
      else if p.gpio_isr_handler_add_b ≠ ESP_OK then none
      else
        some (ESP_OK,
          { s with
            encoder_config := cfg
            encoder_last_state := read_state cfg p.gpio_get_level
            encoder_count := 0
            encoder_initialized := true })

/-- Lines 169-172: `ec11_encoder_get_count`. -/
def ec11_encoder_get_count (s : State) : Int := s.encoder_count

/-- Lines 174-177: `ec11_encoder_reset_count`. -/
def ec11_encoder_reset_count (s : State) : State := { s with encoder_count := 0 }

/-- Lines 179-186: `ec11_encoder_get_button_state`. -/
def ec11_encoder_get_button_state (s : State) (gpio_get_level : Int → Nat) : Bool :=
  if !s.encoder_initialized then
    false
  else
    gpio_get_level s.encoder_config.gpio_button
      == (if s.encoder_config.button_active_low then 0 else 1)

/-- Lines 188-207: `ec11_encoder_deinit` (the handler removal and pin resets act
on the GPIO driver only). -/
def ec11_encoder_deinit (s : State) : esp_err_t × State :=
  if !s.encoder_initialized then
    (ESP_OK, s)
  else
    (ESP_OK, { s with encoder_initialized := false })

/-! ## Runs of the interrupt handler -/

/-- One invocation of the handler: the timer value and the pin levels it sees. -/
structure Edge where
  now_us : Nat
  gpio_get_level : Int → Nat

/-- The handler invoked once per edge, in order. -/
def run_isr (s : State) : List Edge → State
  | [] => s
  | e :: es => run_isr (encoder_isr_handler s e.now_us e.gpio_get_level) es

/-- The invocation reaches line 48 (`encoder_count++`). -/
def accepts_cw (s : State) (e : Edge) : Bool :=
  !decide (elapsed_ms s e.now_us < s.encoder_config.debounce_ms)
    && decide (s.encoder_last_state = 3)
    && decide (read_state s.encoder_config e.gpio_get_level = 1)

/-- The invocation reaches line 51 (`encoder_count--`). -/
def accepts_ccw (s : State) (e : Edge) : Bool :=
  !decide (elapsed_ms s e.now_us < s.encoder_config.debounce_ms)
    && decide (s.encoder_last_state = 3)
    && decide (read_state s.encoder_config e.gpio_get_level = 2)

/-- Number of invocations of a run that execute `encoder_count++`. -/
def cw_steps : State → List Edge → Nat
  | _, [] => 0
  | s, e :: es =>
    (if accepts_cw s e then 1 else 0)
      + cw_steps (encoder_isr_handler s e.now_us e.gpio_get_level) es

/-- Number of invocations of a run that execute `encoder_count--`. -/
def ccw_steps : State → List Edge → Nat
  | _, [] => 0
  | s, e :: es =>
    (if accepts_ccw s e then 1 else 0)
      + ccw_steps (encoder_isr_handler s e.now_us e.gpio_get_level) es

/-- Pin levels with channel A on pin 1, channel B on pin 2 and the button on
pin 3 (the assignment of `hardware_config.h`). -/
def pins (a b btn : Nat) : Int → Nat :=
  fun pin => if pin = 1 then a else if pin = 2 then b else if pin = 3 then btn else 0

/-- Configuration with the pin assignment of `hardware_config.h`, an active-low
button and the given debounce interval. -/
def demo_config (debounce_ms : Nat) : ec11_encoder_config_t :=
  { gpio_a := 1, gpio_b := 2, gpio_button := 3, button_active_low := true
    debounce_ms := debounce_ms }

/-- Platform on which every setup call succeeds and the pins read `a`, `b`,
`btn`. -/
def ok_platform (a b btn : Nat) : Platform :=
  { gpio_config_encoder := ESP_OK
    gpio_config_button := ESP_OK
    gpio_install_isr_service := ESP_OK
    gpio_isr_handler_add_a := ESP_OK
    gpio_isr_handler_add_b := ESP_OK
    gpio_get_level := pins a b btn }

/-- State of a running session on the demo pins: debounce interval 5 ms, both
channels at rest (phase 11), counter at the top of the `int16_t` range. -/
def at_int16_max : State :=
  { encoder_count := 32767
    encoder_last_state := 3
    last_interrupt_time := 0
    encoder_config := demo_config 5
    encoder_initialized := true
    last_encoder_count := 32767 }

/-- State left by the first `ec11_encoder_init` after boot on the demo pins,
with the given debounce interval and channel levels `a`, `b` (button line
high). -/
def fresh (debounce_ms a b : Nat) : State :=
  match ec11_encoder_init boot (some (demo_config debounce_ms)) (ok_platform a b 1) with
  | some (_, s) => s
  | none => boot

/-- One clockwise detent on the demo pins, as two handler invocations: channel A
falls (phase 01) at `t_ms + 10` ms, then both channels are back at rest (phase
11) at `t_ms + 20` ms. -/
def cw_detent (t_ms : Nat) : List Edge :=
  [{ now_us := 1000 * (t_ms + 10), gpio_get_level := pins 0 1 1 },
   { now_us := 1000 * (t_ms + 20), gpio_get_level := pins 1 1 1 }]

/-- Clockwise detents in a row, `n` of them, one every 20 ms from `t_ms` on. -/
def cw_burst : Nat → Nat → List Edge
  | _, 0 => []
  | t_ms, n + 1 => cw_detent t_ms ++ cw_burst (t_ms + 20) n

/-- The four handler invocations of the debounce scenario, with the timer reading
`T` ms at the first one: phase 01 at `T`, phase 11 at `T + 2`, phase 01 at
`T + 3` and phase 01 at `T + 6` (milliseconds). -/
def scenario (T : Nat) : List Edge :=
  [{ now_us := 1000 * T, gpio_get_level := pins 0 1 1 },
   { now_us := 1000 * (T + 2), gpio_get_level := pins 1 1 1 },
   { now_us := 1000 * (T + 3), gpio_get_level := pins 0 1 1 },
   { now_us := 1000 * (T + 6), gpio_get_level := pins 0 1 1 }]

/-- State of a running session whose counter and poll baseline both sit at the
bottom of the `int16_t` range (32768 counter-clockwise steps from 0, then a
poll). -/
def at_int16_min_polled : State :=
  { encoder_count := -32768
    encoder_last_state := 3
    last_interrupt_time := 0
    encoder_config := demo_config 5
    encoder_initialized := true
    last_encoder_count := -32768 }

/-- State after: first init (debounce 5 ms, phase 11), one accepted clockwise
detent, `ec11_encoder_deinit`. -/
def after_step_and_deinit : State :=
  (ec11_encoder_deinit (run_isr (fresh 5 1 1) (cw_detent 0))).2

/-- The calls that change the component's state: `ec11_encoder_init`, one edge
reaching `encoder_isr_handler`, one poll through `encoder_read_cb`,
`ec11_encoder_reset_count` and `ec11_encoder_deinit`. -/
inductive Op where
  | init (config : Option ec11_encoder_config_t) (p : Platform)
  | edge (e : Edge)
  | poll (gpio_get_level : Int → Nat)
  | reset_count
  | deinit

/-- One call. The handler is attached to the two channel pins by
`ec11_encoder_init` (lines 127-128) and detached by `ec11_encoder_deinit` (lines
195-196), so an edge invokes it only while `encoder_initialized` holds. The
result is `none` when init aborts. -/
def apply_op (s : State) : Op → Option State
  | Op.init config p => (ec11_encoder_init s config p).map (fun out => out.2)
  | Op.edge e =>
    some (if s.encoder_initialized then encoder_isr_handler s e.now_us e.gpio_get_level else s)
  | Op.poll g => some (encoder_read_cb s g).1
  | Op.reset_count => some (ec11_encoder_reset_count s)
  | Op.deinit => some (ec11_encoder_deinit s).2

/-- A sequence of calls, in order, stopping at an abort. -/
def run_ops (s : State) : List Op → Option State
  | [] => some s
  | o :: os => (apply_op s o).bind (fun s1 => run_ops s1 os)

/-- Calls of a first session on the demo pins: init with debounce 5 ms at rest,
three clockwise detents, one poll. -/
def first_session_ops : List Op :=
  Op.init (some (demo_config 5)) (ok_platform 1 1 1)
    :: ((cw_burst 0 3).map Op.edge ++ [Op.poll (pins 1 1 1)])

/-- State a first session leaves behind: three clockwise detents counted and
polled, so counter and poll baseline are both 3. -/
def polled_at_three : State :=
  (encoder_read_cb (run_isr (fresh 5 1 1) (cw_burst 0 3)) (pins 1 1 1)).1

/-- State after the first session is closed with `ec11_encoder_deinit` and a
second one is opened with debounce 8 ms while channel B is low (phase 10). -/
def after_reinit : State :=
  match ec11_encoder_init (ec11_encoder_deinit polled_at_three).2 (some (demo_config 8))
      (ok_platform 1 0 1) with
  | some (_, s) => s
  | none => boot

/-! ## Machine arithmetic lemmas -/

theorem wrap16_range (x : Int) : in_int16 (wrap16 x) := by
  unfold in_int16 wrap16; omega

theorem wrap16_of_in_int16 {x : Int} (h : in_int16 x) : wrap16 x = x := by
  unfold in_int16 at h; unfold wrap16; omega

theorem wrap16_succ {x : Int} (h : in_int16 x) :
    wrap16 (x + 1) = if x = 32767 then -32768 else x + 1 := by
  unfold in_int16 at h; unfold wrap16; split_ifs <;> omega

theorem wrap16_pred {x : Int} (h : in_int16 x) :
    wrap16 (x - 1) = if x = -32768 then 32767 else x - 1 := by
  unfold in_int16 at h; unfold wrap16; split_ifs <;> omega

theorem read_state_of_levels (cfg : ec11_encoder_config_t) (g : Int → Nat)
    (ha : g cfg.gpio_a < 2) (hb : g cfg.gpio_b < 2) :
    read_state cfg g = 2 * g cfg.gpio_a + g cfg.gpio_b := by
  unfold read_state
  generalize g cfg.gpio_a = a at ha ⊢
  generalize g cfg.gpio_b = b at hb ⊢
  interval_cases a <;> interval_cases b <;> rfl

/-! ## The handler, branch by branch -/

theorem isr_debounced (s : State) (now_us : Nat) (g : Int → Nat)
    (h : elapsed_ms s now_us < s.encoder_config.debounce_ms) :
    encoder_isr_handler s now_us g = s := by
  simp [encoder_isr_handler, h]

theorem isr_count (s : State) (e : Edge) :
    (encoder_isr_handler s e.now_us e.gpio_get_level).encoder_count =
      if accepts_cw s e then wrap16 (s.encoder_count + 1)
      else if accepts_ccw s e then wrap16 (s.encoder_count - 1)
      else s.encoder_count := by
  unfold encoder_isr_handler accepts_cw accepts_ccw
  by_cases hg : elapsed_ms s e.now_us < s.encoder_config.debounce_ms
  · simp [hg]
  · by_cases h3 : s.encoder_last_state = 3
    · by_cases h1 : read_state s.encoder_config e.gpio_get_level = 1
      · simp [hg, h3, h1]
      · by_cases h2 : read_state s.encoder_config e.gpio_get_level = 2
        · simp [hg, h3, h2]
        · simp [hg, h3, h1, h2]
    · simp [hg, h3]

theorem isr_config (s : State) (now_us : Nat) (g : Int → Nat) :
    (encoder_isr_handler s now_us g).encoder_config = s.encoder_config := by
  unfold encoder_isr_handler
  dsimp only
  split_ifs <;> rfl

theorem isr_frame (s : State) (now_us : Nat) (g : Int → Nat) :
    (encoder_isr_handler s now_us g).encoder_initialized = s.encoder_initialized
      ∧ (encoder_isr_handler s now_us g).last_encoder_count = s.last_encoder_count := by
  unfold encoder_isr_handler
  dsimp only
  split_ifs <;> exact ⟨rfl, rfl⟩

theorem isr_count_in_int16 (s : State) (now_us : Nat) (g : Int → Nat)
    (h : in_int16 s.encoder_count) :
    in_int16 (encoder_isr_handler s now_us g).encoder_count := by
  unfold encoder_isr_handler
  dsimp only
  split_ifs <;> first | exact h | exact wrap16_range _

theorem run_isr_append (s : State) (pre : List Edge) (e : Edge) :
    run_isr s (pre ++ [e]) = encoder_isr_handler (run_isr s pre) e.now_us e.gpio_get_level := by
  induction pre generalizing s with
  | nil => rfl
  | cons x xs ih => simpa [run_isr] using ih _

theorem run_isr_count_in_int16 (s : State) (es : List Edge) (h : in_int16 s.encoder_count) :
    in_int16 (run_isr s es).encoder_count := by
  induction es generalizing s with
  | nil => exact h
  | cons x xs ih => exact ih _ (isr_count_in_int16 s _ _ h)

theorem isr_count_cases (s : State) (now_us : Nat) (g : Int → Nat)
    (hgate : ¬ elapsed_ms s now_us < s.encoder_config.debounce_ms) :
    (encoder_isr_handler s now_us g).encoder_count =
      if s.encoder_last_state = 3 ∧ read_state s.encoder_config g = 1 then
        wrap16 (s.encoder_count + 1)
      else if s.encoder_last_state = 3 ∧ read_state s.encoder_config g = 2 then
        wrap16 (s.encoder_count - 1)
      else s.encoder_count := by
  have h := isr_count s ⟨now_us, g⟩
  simp only [accepts_cw, accepts_ccw, hgate, decide_False, Bool.not_false, Bool.true_and,
    Bool.and_eq_true, decide_eq_true_eq] at h
  exact h

theorem isr_count_step (s : State) (now_us : Nat) (g : Int → Nat) :
    (encoder_isr_handler s now_us g).encoder_count = s.encoder_count
      ∨ (encoder_isr_handler s now_us g).encoder_count = wrap16 (s.encoder_count + 1)
      ∨ (encoder_isr_handler s now_us g).encoder_count = wrap16 (s.encoder_count - 1) := by
  have h := isr_count s ⟨now_us, g⟩
  dsimp only at h
  rw [h]
  split_ifs <;> simp

/-! ## C1: the counter moves only on `11 → 01` and `11 → 10` -/

/-- C1, as stated, fails at the top of the `int16_t` range: with the counter at
32767 an edge that passes the debounce gate and shows the transition `11 → 01`
stores -32768, which is not the old value plus one. -/
theorem isr_plus_one_fails_at_int16_max :
    ¬ (elapsed_ms at_int16_max 10000 < at_int16_max.encoder_config.debounce_ms)
      ∧ at_int16_max.encoder_last_state = 3
      ∧ read_state at_int16_max.encoder_config (pins 0 1 1) = 1
      ∧ (encoder_isr_handler at_int16_max 10000 (pins 0 1 1)).encoder_count = -32768
      ∧ (encoder_isr_handler at_int16_max 10000 (pins 0 1 1)).encoder_count
          ≠ at_int16_max.encoder_count + 1 := by
  decide

/-- C1 (amended): for every decoder state whose counter is an `int16_t` value and
every edge that passes the debounce gate, `encoder_isr_handler` stores the old
counter plus one, wrapping 32767 to -32768, when `last_phase` is 11 and the new
phase is 01; stores the old counter minus one, wrapping -32768 to 32767, when
`last_phase` is 11 and the new phase is 10; and leaves the counter unchanged for
every other pair. Below 32767 the change is exactly +1 if and only if the
transition is `11 → 01`; above -32768 it is exactly -1 if and only if the
transition is `11 → 10`. Over every sequence of edges each invocation changes the
counter by at most one step modulo `2^16`. -/
theorem isr_counter_change (s : State) (now_us : Nat) (g : Int → Nat)
    (hc : in_int16 s.encoder_count)
    (hgate : ¬ elapsed_ms s now_us < s.encoder_config.debounce_ms) :
    (s.encoder_last_state = 3 ∧ read_state s.encoder_config g = 1 →
        (encoder_isr_handler s now_us g).encoder_count
          = if s.encoder_count = 32767 then -32768 else s.encoder_count + 1)
    ∧ (s.encoder_last_state = 3 ∧ read_state s.encoder_config g = 2 →
        (encoder_isr_handler s now_us g).encoder_count
          = if s.encoder_count = -32768 then 32767 else s.encoder_count - 1)
    ∧ (¬ (s.encoder_last_state = 3 ∧ read_state s.encoder_config g = 1)
        ∧ ¬ (s.encoder_last_state = 3 ∧ read_state s.encoder_config g = 2) →
        (encoder_isr_handler s now_us g).encoder_count = s.encoder_count)
    ∧ (s.encoder_count < 32767 →
        ((encoder_isr_handler s now_us g).encoder_count = s.encoder_count + 1
          ↔ s.encoder_last_state = 3 ∧ read_state s.encoder_config g = 1))
    ∧ (-32768 < s.encoder_count →
        ((encoder_isr_handler s now_us g).encoder_count = s.encoder_count - 1
          ↔ s.encoder_last_state = 3 ∧ read_state s.encoder_config g = 2))
    ∧ (∀ (pre : List Edge) (e : Edge),
        (run_isr s (pre ++ [e])).encoder_count = (run_isr s pre).encoder_count
        ∨ (run_isr s (pre ++ [e])).encoder_count
            = wrap16 ((run_isr s pre).encoder_count + 1)
        ∨ (run_isr s (pre ++ [e])).encoder_count
            = wrap16 ((run_isr s pre).encoder_count - 1)) := by
  have hcases := isr_count_cases s now_us g hgate
  have hup := wrap16_succ hc
  have hdown := wrap16_pred hc
  have hc2 := hc
  unfold in_int16 at hc2
  refine ⟨?_, ?_, ?_, ?_, ?_, ?_⟩
  · intro h
    rw [hcases, if_pos h, hup]
  · intro h
    have h1 : ¬ (s.encoder_last_state = 3 ∧ read_state s.encoder_config g = 1) := by
      intro h'
      omega
    rw [hcases, if_neg h1, if_pos h, hdown]
  · intro h
    rw [hcases, if_neg h.1, if_neg h.2]
  · intro hlt
    rw [hcases]
    split_ifs with h1 h2
    · rw [hup]
      split_ifs <;> simp_all
    · rw [hdown]
      constructor
      · intro h
        split_ifs at h <;> omega
      · intro h
        exact absurd h h1
    · constructor
      · intro h
        omega
      · intro h
        exact absurd h h1
  · intro hgt
    rw [hcases]
    split_ifs with h1 h2
    · rw [hup]
      constructor
      · intro h
        split_ifs at h <;> omega
      · intro h
        omega
    · rw [hdown]
      constructor
      · intro _
        exact h2
      · intro _
        split_ifs <;> omega
    · constructor
      · intro h
        omega
      · intro h
        exact absurd h h2
  · intro pre e
    rw [run_isr_append]
    exact isr_count_step _ _ _

/-- Witness: a freshly initialised session at rest
(phase 11, debounce 5 ms) seeing phase 01 at 10 ms counts one step up. -/
theorem isr_counter_change_witness :
    in_int16 (fresh 5 1 1).encoder_count
      ∧ ¬ (elapsed_ms (fresh 5 1 1) 10000 < (fresh 5 1 1).encoder_config.debounce_ms)
      ∧ (encoder_isr_handler (fresh 5 1 1) 10000 (pins 0 1 1)).encoder_count = 1 :=
  ⟨by decide, by decide,
    ((isr_counter_change (fresh 5 1 1) 10000 (pins 0 1 1) (by decide) (by decide)).1
      (by decide)).trans (by decide)⟩

/-! ## C2: edges inside the debounce window are discarded entirely -/

/-- C2: for every decoder state and every edge whose elapsed time since
`last_interrupt_time` (as line 33 computes it) is below the configured debounce
interval, `encoder_isr_handler` leaves the counter, `encoder_last_state` and
`last_interrupt_time` as they were, whatever the channel levels are; in fact the
whole state is unchanged. The elapsed time of line 33 is the plain difference of
the two millisecond timestamps whenever the timer has not wrapped. -/
theorem isr_within_debounce_unchanged (s : State) (now_us : Nat) (g : Int → Nat)
    (h : elapsed_ms s now_us < s.encoder_config.debounce_ms) :
    (encoder_isr_handler s now_us g).encoder_count = s.encoder_count
      ∧ (encoder_isr_handler s now_us g).encoder_last_state = s.encoder_last_state
      ∧ (encoder_isr_handler s now_us g).last_interrupt_time = s.last_interrupt_time
      ∧ encoder_isr_handler s now_us g = s
      ∧ (s.last_interrupt_time ≤ now_us / 1000 → now_us / 1000 < 4294967296 →
          elapsed_ms s now_us = now_us / 1000 - s.last_interrupt_time) := by
  rw [isr_debounced s now_us g h]
  refine ⟨rfl, rfl, rfl, rfl, ?_⟩
  intro hle hlt
  unfold elapsed_ms current_time_ms
  omega

/-- Witness: 3 ms after boot, with a 5 ms
debounce interval, a shape-matching `11 → 01` edge is discarded. -/
theorem isr_within_debounce_unchanged_witness :
    elapsed_ms (fresh 5 1 1) 3000 < (fresh 5 1 1).encoder_config.debounce_ms
      ∧ encoder_isr_handler (fresh 5 1 1) 3000 (pins 0 1 1) = fresh 5 1 1 :=
  ⟨by decide,
    (isr_within_debounce_unchanged (fresh 5 1 1) 3000 (pins 0 1 1) (by decide)).2.2.2.1⟩

/-! ## Runs: the counter against the number of accepted steps -/

theorem run_isr_frame (s : State) (es : List Edge) :
    (run_isr s es).last_encoder_count = s.last_encoder_count
      ∧ (run_isr s es).encoder_config = s.encoder_config
      ∧ (run_isr s es).encoder_initialized = s.encoder_initialized := by
  induction es generalizing s with
  | nil => exact ⟨rfl, rfl, rfl⟩
  | cons x xs ih =>
    obtain ⟨h1, h2, h3⟩ := ih (encoder_isr_handler s x.now_us x.gpio_get_level)
    obtain ⟨h4, h5⟩ := isr_frame s x.now_us x.gpio_get_level
    have h6 := isr_config s x.now_us x.gpio_get_level
    exact ⟨h1.trans h5, h2.trans h6, h3.trans h4⟩

theorem accepts_cw_not_ccw (s : State) (e : Edge) (h : accepts_cw s e = true) :
    accepts_ccw s e = false := by
  simp only [accepts_cw, accepts_ccw, Bool.and_eq_true, decide_eq_true_eq,
    Bool.and_eq_false_imp] at h ⊢
  intro _
  simp [h.2]

theorem run_isr_count_mod (s : State) (es : List Edge) :
    (run_isr s es).encoder_count % 65536
      = (s.encoder_count + (cw_steps s es : Int) - (ccw_steps s es : Int)) % 65536 := by
  induction es generalizing s with
  | nil => simp [run_isr, cw_steps, ccw_steps]
  | cons x xs ih =>
    have hstep := isr_count s x
    have ih2 := ih (encoder_isr_handler s x.now_us x.gpio_get_level)
    simp only [run_isr, cw_steps, ccw_steps, Nat.cast_add]
    rw [ih2, hstep]
    cases hcw : accepts_cw s x
    · cases hccw : accepts_ccw s x
      · simp only [Bool.false_eq_true, if_false, Nat.cast_zero]
        omega
      · simp only [Bool.false_eq_true, if_true, if_false, Nat.cast_one, Nat.cast_zero]
        unfold wrap16
        omega
    · have hccw := accepts_cw_not_ccw s x hcw
      simp only [hccw, Bool.false_eq_true, if_true, if_false, Nat.cast_one, Nat.cast_zero]
      unfold wrap16
      omega

theorem read_cb_diff (s : State) (g : Int → Nat) :
    (encoder_read_cb s g).2.enc_diff = wrap16 (s.encoder_count - s.last_encoder_count) := rfl

theorem read_cb_state (s : State) (g : Int → Nat) :
    (encoder_read_cb s g).1 = { s with last_encoder_count := s.encoder_count } := rfl

theorem read_state_demo_01 (d : Nat) : read_state (demo_config d) (pins 0 1 1) = 1 := by
  unfold read_state demo_config
  dsimp only
  decide

theorem read_state_demo_11 (d : Nat) : read_state (demo_config d) (pins 1 1 1) = 3 := by
  unfold read_state demo_config
  dsimp only
  decide

theorem isr_cw (s : State) (now_us : Nat) (g : Int → Nat)
    (hgate : ¬ elapsed_ms s now_us < s.encoder_config.debounce_ms)
    (h3 : s.encoder_last_state = 3) (h1 : read_state s.encoder_config g = 1) :
    encoder_isr_handler s now_us g
      = { s with
          encoder_count := wrap16 (s.encoder_count + 1)
          last_interrupt_time := current_time_ms now_us
          encoder_last_state := 1 } := by
  simp [encoder_isr_handler, hgate, h3, h1]

theorem isr_not_at_rest (s : State) (now_us : Nat) (g : Int → Nat)
    (hgate : ¬ elapsed_ms s now_us < s.encoder_config.debounce_ms)
    (h3 : s.encoder_last_state ≠ 3) :
    encoder_isr_handler s now_us g
      = { s with encoder_last_state := read_state s.encoder_config g } := by
  simp [encoder_isr_handler, hgate, h3]

theorem cw_detent_run (s : State) (t : Nat)
    (hcfg : s.encoder_config = demo_config 5) (hlast : s.encoder_last_state = 3)
    (htime : s.last_interrupt_time ≤ t + 5) (ht : t + 20 < 4294967296) :
    run_isr s (cw_detent t)
        = { s with
            encoder_count := wrap16 (s.encoder_count + 1)
            last_interrupt_time := t + 10
            encoder_last_state := 3 }
      ∧ cw_steps s (cw_detent t) = 1 ∧ ccw_steps s (cw_detent t) = 0 := by
  have e1 : ¬ elapsed_ms s (1000 * (t + 10)) < s.encoder_config.debounce_ms := by
    rw [hcfg]
    unfold elapsed_ms current_time_ms demo_config
    dsimp only
    omega
  have c1 : current_time_ms (1000 * (t + 10)) = t + 10 := by
    unfold current_time_ms
    omega
  have r1 : read_state s.encoder_config (pins 0 1 1) = 1 := by
    rw [hcfg, read_state_demo_01]
  have h1 := isr_cw s (1000 * (t + 10)) (pins 0 1 1) e1 hlast r1
  rw [c1] at h1
  have e2 : ¬ elapsed_ms
        { s with
          encoder_count := wrap16 (s.encoder_count + 1)
          last_interrupt_time := t + 10
          encoder_last_state := 1 } (1000 * (t + 20))
      < s.encoder_config.debounce_ms := by
    rw [hcfg]
    unfold elapsed_ms current_time_ms demo_config
    dsimp only
    omega
  have h2 := isr_not_at_rest
    { s with
      encoder_count := wrap16 (s.encoder_count + 1)
      last_interrupt_time := t + 10
      encoder_last_state := 1 } (1000 * (t + 20)) (pins 1 1 1) e2 (by simp)
  dsimp only at h2
  rw [hcfg, read_state_demo_11, ← hcfg] at h2
  refine ⟨?_, ?_, ?_⟩
  · simp only [cw_detent, run_isr]
    rw [h1, h2]
  · simp only [cw_detent, cw_steps]
    rw [h1]
    simp [accepts_cw, e1, e2, hlast, r1]
  · simp only [cw_detent, ccw_steps]
    rw [h1]
    simp [accepts_ccw, e1, e2, hlast, r1]

theorem run_isr_concat (s : State) (xs ys : List Edge) :
    run_isr s (xs ++ ys) = run_isr (run_isr s xs) ys := by
  induction xs generalizing s with
  | nil => rfl
  | cons x xs ih => simpa [run_isr] using ih _

theorem cw_steps_concat (s : State) (xs ys : List Edge) :
    cw_steps s (xs ++ ys) = cw_steps s xs + cw_steps (run_isr s xs) ys := by
  induction xs generalizing s with
  | nil => simp [run_isr, cw_steps]
  | cons x xs ih => simp [run_isr, cw_steps, ih, Nat.add_assoc]

theorem ccw_steps_concat (s : State) (xs ys : List Edge) :
    ccw_steps s (xs ++ ys) = ccw_steps s xs + ccw_steps (run_isr s xs) ys := by
  induction xs generalizing s with
  | nil => simp [run_isr, ccw_steps]
  | cons x xs ih => simp [run_isr, ccw_steps, ih, Nat.add_assoc]

theorem cw_burst_run (n : Nat) : ∀ (s : State) (t : Nat),
    s.encoder_config = demo_config 5 → s.encoder_last_state = 3 →
    s.last_interrupt_time ≤ t + 5 → t + 20 * n < 4294967296 →
    (run_isr s (cw_burst t n)).encoder_count % 65536 = (s.encoder_count + n) % 65536
      ∧ cw_steps s (cw_burst t n) = n ∧ ccw_steps s (cw_burst t n) = 0 := by
  induction n with
  | zero =>
    intro s t _ _ _ _
    simp [cw_burst, run_isr, cw_steps, ccw_steps]
  | succ n ih =>
    intro s t hcfg hlast htime ht
    obtain ⟨hrun, hcw, hccw⟩ := cw_detent_run s t hcfg hlast htime (by omega)
    have ih2 := ih (run_isr s (cw_detent t)) (t + 20)
      (by rw [hrun]; exact hcfg) (by rw [hrun]) (by rw [hrun]; dsimp only; omega) (by omega)
    obtain ⟨icount, icw, iccw⟩ := ih2
    have hc1 : (run_isr s (cw_detent t)).encoder_count = wrap16 (s.encoder_count + 1) := by
      rw [hrun]
    refine ⟨?_, ?_, ?_⟩
    · simp only [cw_burst, run_isr_concat]
      rw [icount, hc1]
      unfold wrap16
      push_cast
      omega
    · simp only [cw_burst, cw_steps_concat]
      rw [hcw, icw]
      omega
    · simp only [cw_burst, ccw_steps_concat]
      rw [hccw, iccw]

/-! ## C3: the poll delta -/

/-- C3, as stated, fails for large step counts: after 32768 accepted clockwise
steps and no counter-clockwise step from a baseline equal to the counter, the
poll reports -32768, not 32768. -/
theorem poll_delta_wraps_after_32768_steps :
    (fresh 5 1 1).last_encoder_count = (fresh 5 1 1).encoder_count
      ∧ cw_steps (fresh 5 1 1) (cw_burst 0 32768) = 32768
      ∧ ccw_steps (fresh 5 1 1) (cw_burst 0 32768) = 0
      ∧ (encoder_read_cb (run_isr (fresh 5 1 1) (cw_burst 0 32768)) (pins 1 1 1)).2.enc_diff
          = -32768
      ∧ (encoder_read_cb (run_isr (fresh 5 1 1) (cw_burst 0 32768)) (pins 1 1 1)).2.enc_diff
          ≠ (cw_steps (fresh 5 1 1) (cw_burst 0 32768) : Int)
              - (ccw_steps (fresh 5 1 1) (cw_burst 0 32768) : Int) := by
  obtain ⟨hcount, hcw, hccw⟩ := cw_burst_run 32768 (fresh 5 1 1) 0 (by decide) (by decide)
    (by decide) (by decide)
  have hr := run_isr_count_in_int16 (fresh 5 1 1) (cw_burst 0 32768) (by decide)
  have hb := (run_isr_frame (fresh 5 1 1) (cw_burst 0 32768)).1
  have h0 : (fresh 5 1 1).encoder_count = 0 := by decide
  have hl : (fresh 5 1 1).last_encoder_count = 0 := by decide
  have hd : (encoder_read_cb (run_isr (fresh 5 1 1) (cw_burst 0 32768)) (pins 1 1 1)).2.enc_diff
      = -32768 := by
    rw [read_cb_diff, hb, hl]
    rw [h0] at hcount
    unfold in_int16 at hr
    unfold wrap16
    push_cast at hcount
    omega
  refine ⟨by decide, hcw, hccw, hd, ?_⟩
  rw [hd, hcw, hccw]
  decide

/-- C3 (amended): if the poll baseline equals the counter and the decoder then
runs through any sequence of edges in which it accepts `M` clockwise and `K`
counter-clockwise steps, in any interleaving, the next poll reports `M - K`
reduced modulo `2^16` into the `int16_t` range, hence exactly `M - K` whenever
`-32768 ≤ M - K ≤ 32767`; a poll made immediately afterwards, with no further
handler invocation, reports 0 and leaves the baseline equal to the counter. -/
theorem poll_delta_after_steps (s : State) (es : List Edge) (g1 g2 : Int → Nat)
    (hc : in_int16 s.encoder_count) (hb : s.last_encoder_count = s.encoder_count) :
    (encoder_read_cb (run_isr s es) g1).2.enc_diff
        = wrap16 ((cw_steps s es : Int) - (ccw_steps s es : Int))
      ∧ (in_int16 ((cw_steps s es : Int) - (ccw_steps s es : Int)) →
          (encoder_read_cb (run_isr s es) g1).2.enc_diff
            = (cw_steps s es : Int) - (ccw_steps s es : Int))
      ∧ (encoder_read_cb (encoder_read_cb (run_isr s es) g1).1 g2).2.enc_diff = 0
      ∧ (encoder_read_cb (run_isr s es) g1).1.last_encoder_count
          = (encoder_read_cb (run_isr s es) g1).1.encoder_count := by
  have hmod := run_isr_count_mod s es
  have hr := run_isr_count_in_int16 s es hc
  have hf := (run_isr_frame s es).1
  have hdiff : (encoder_read_cb (run_isr s es) g1).2.enc_diff
      = wrap16 ((cw_steps s es : Int) - (ccw_steps s es : Int)) := by
    rw [read_cb_diff, hf, hb]
    unfold in_int16 at hr hc
    unfold wrap16
    omega
  refine ⟨hdiff, ?_, ?_, ?_⟩
  · intro hin
    rw [hdiff, wrap16_of_in_int16 hin]
  · rw [read_cb_diff, read_cb_state]
    dsimp only
    unfold wrap16
    omega
  · rw [read_cb_state]

/-- Witness: seven clockwise detents after a fresh
initialisation (counter 0, baseline 0) make the poll report 7, and the poll
right after it report 0. -/
theorem poll_delta_after_steps_witness :
    in_int16 (fresh 5 1 1).encoder_count
      ∧ (fresh 5 1 1).last_encoder_count = (fresh 5 1 1).encoder_count
      ∧ (encoder_read_cb (run_isr (fresh 5 1 1) (cw_burst 0 7)) (pins 1 1 1)).2.enc_diff = 7
      ∧ (encoder_read_cb (encoder_read_cb (run_isr (fresh 5 1 1) (cw_burst 0 7))
          (pins 1 1 1)).1 (pins 1 1 1)).2.enc_diff = 0 :=
  ⟨by decide, by decide,
    ((poll_delta_after_steps (fresh 5 1 1) (cw_burst 0 7) (pins 1 1 1) (pins 1 1 1)
      (by decide) (by decide)).1).trans (by decide),
    (poll_delta_after_steps (fresh 5 1 1) (cw_burst 0 7) (pins 1 1 1) (pins 1 1 1)
      (by decide) (by decide)).2.2.1⟩

/-! ## C4: the debounce scenario -/

theorem fresh_5_eq :
    fresh 5 1 1
      = { encoder_count := 0
          encoder_last_state := 3
          last_interrupt_time := 0
          encoder_config := demo_config 5
          encoder_initialized := true
          last_encoder_count := 0 } := by
  decide

theorem scenario_late_start (T : Nat) (h5 : 5 ≤ T % 4294967296) :
    run_isr (fresh 5 1 1) ((scenario T).take 1)
        = { fresh 5 1 1 with
            encoder_count := 1, last_interrupt_time := T % 4294967296, encoder_last_state := 1 }
      ∧ run_isr (fresh 5 1 1) ((scenario T).take 2)
          = run_isr (fresh 5 1 1) ((scenario T).take 1)
      ∧ run_isr (fresh 5 1 1) ((scenario T).take 3)
          = run_isr (fresh 5 1 1) ((scenario T).take 1)
      ∧ run_isr (fresh 5 1 1) (scenario T)
          = run_isr (fresh 5 1 1) ((scenario T).take 1) := by
  have hcfg : (fresh 5 1 1).encoder_config = demo_config 5 := by decide
  have e1 : ¬ elapsed_ms (fresh 5 1 1) (1000 * T) < (fresh 5 1 1).encoder_config.debounce_ms := by
    rw [fresh_5_eq]
    unfold elapsed_ms current_time_ms demo_config
    dsimp only
    omega
  have c1 : current_time_ms (1000 * T) = T % 4294967296 := by
    unfold current_time_ms
    omega
  have h1 := isr_cw (fresh 5 1 1) (1000 * T) (pins 0 1 1) e1 (by decide)
    (by rw [hcfg, read_state_demo_01])
  rw [c1] at h1
  have h1b : encoder_isr_handler (fresh 5 1 1) (1000 * T) (pins 0 1 1)
      = { fresh 5 1 1 with
          encoder_count := 1, last_interrupt_time := T % 4294967296, encoder_last_state := 1 } := by
    rw [h1]
    rfl
  rw [fresh_5_eq] at h1b
  dsimp only at h1b
  have e2 : elapsed_ms
        { encoder_count := 1, encoder_last_state := 1, last_interrupt_time := T % 4294967296,
          encoder_config := demo_config 5, encoder_initialized := true,
          last_encoder_count := 0 } (1000 * (T + 2)) < 5 := by
    unfold elapsed_ms current_time_ms
    dsimp only
    omega
  have e3 : elapsed_ms
        { encoder_count := 1, encoder_last_state := 1, last_interrupt_time := T % 4294967296,
          encoder_config := demo_config 5, encoder_initialized := true,
          last_encoder_count := 0 } (1000 * (T + 3)) < 5 := by
    unfold elapsed_ms current_time_ms
    dsimp only
    omega
  have e4 : ¬ elapsed_ms
        { encoder_count := 1, encoder_last_state := 1, last_interrupt_time := T % 4294967296,
          encoder_config := demo_config 5, encoder_initialized := true,
          last_encoder_count := 0 } (1000 * (T + 6)) < 5 := by
    unfold elapsed_ms current_time_ms
    dsimp only
    omega
  have h2 := isr_debounced _ (1000 * (T + 2)) (pins 1 1 1) e2
  have h3 := isr_debounced _ (1000 * (T + 3)) (pins 0 1 1) e3
  have h4 := isr_not_at_rest _ (1000 * (T + 6)) (pins 0 1 1) e4 (by simp)
  dsimp only at h4
  rw [read_state_demo_01] at h4
  rw [fresh_5_eq]
  simp only [scenario, List.take, run_isr]
  rw [h1b, h2, h3, h4]
  exact ⟨rfl, rfl, rfl, rfl⟩

theorem isr_time_congr (s : State) (a b : Nat) (g : Int → Nat)
    (h : current_time_ms a = current_time_ms b) :
    encoder_isr_handler s a g = encoder_isr_handler s b g := by
  simp only [encoder_isr_handler, elapsed_ms, h]

theorem scenario_time_mod (T : Nat) (n : Nat) :
    run_isr (fresh 5 1 1) ((scenario T).take n)
      = run_isr (fresh 5 1 1) ((scenario (T % 4294967296)).take n) := by
  have c0 : current_time_ms (1000 * T) = current_time_ms (1000 * (T % 4294967296)) := by
    unfold current_time_ms
    omega
  have c2 : current_time_ms (1000 * (T + 2))
      = current_time_ms (1000 * (T % 4294967296 + 2)) := by
    unfold current_time_ms
    omega
  have c3 : current_time_ms (1000 * (T + 3))
      = current_time_ms (1000 * (T % 4294967296 + 3)) := by
    unfold current_time_ms
    omega
  have c6 : current_time_ms (1000 * (T + 6))
      = current_time_ms (1000 * (T % 4294967296 + 6)) := by
    unfold current_time_ms
    omega
  have hlist : ∀ s : State, ∀ k : Nat,
      run_isr s ((scenario T).take k) = run_isr s ((scenario (T % 4294967296)).take k) := by
    intro s k
    match k with
    | 0 => rfl
    | 1 =>
      simp only [scenario, List.take, run_isr]
      rw [isr_time_congr _ _ _ _ c0]
    | 2 =>
      simp only [scenario, List.take, run_isr]
      rw [isr_time_congr _ _ _ _ c0, isr_time_congr _ _ _ _ c2]
    | 3 =>
      simp only [scenario, List.take, run_isr]
      rw [isr_time_congr _ _ _ _ c0, isr_time_congr _ _ _ _ c2, isr_time_congr _ _ _ _ c3]
    | k + 4 =>
      simp only [scenario, List.take, run_isr]
      rw [isr_time_congr _ _ _ _ c0, isr_time_congr _ _ _ _ c2, isr_time_congr _ _ _ _ c3,
        isr_time_congr _ _ _ _ c6]
  exact hlist _ n

/-- C4, as stated, fails: fed the four edges at 0, 2, 3 and 6 ms, the freshly
initialised encoder (debounce 5 ms, `last_phase` 11, counter 0) ends with
counter 1, not 2. The edge at 0 ms is discarded (counter still 0 after it), and
so are the edges at 2 ms and 3 ms. Started 100 ms later, the same four edges
also end with counter 1. -/
theorem scenario_final_count_is_not_two :
    (run_isr (fresh 5 1 1) (scenario 0)).encoder_count = 1
      ∧ (run_isr (fresh 5 1 1) (scenario 0)).encoder_count ≠ 2
      ∧ (run_isr (fresh 5 1 1) ((scenario 0).take 1)).encoder_count = 0
      ∧ (run_isr (fresh 5 1 1) (scenario 100)).encoder_count = 1 := by
  decide

/-- C4 (amended): starting from a freshly initialised encoder with debounce
interval 5 ms, `last_phase` 11, counter 0 and `last_interrupt_time` 0, the edges
(phase 01 at 0 ms), (phase 11 at 2 ms), (phase 01 at 3 ms), (phase 01 at 6 ms)
end with counter 1: the first three are discarded by the debounce gate and the
edge at 6 ms is counted as the `11 → 01` step. More generally, with the four
edges at timer values `T`, `T + 2`, `T + 3`, `T + 6` ms, the run ends with
counter 1 for every `T`. When the `uint32_t` millisecond timestamp of the first
edge, `T mod 2^32`, is 0 the path is the one above. When it is at least 5 the
first edge is counted, the edges at `T + 2` and `T + 3` are discarded, so
`last_phase` stays 01, and the edge at `T + 6` passes the gate as `01 → 01` and
counts nothing. -/
theorem scenario_final_count (T : Nat) :
    (fresh 5 1 1).encoder_config.debounce_ms = 5
      ∧ (fresh 5 1 1).encoder_last_state = 3
      ∧ (fresh 5 1 1).encoder_count = 0
      ∧ (fresh 5 1 1).last_interrupt_time = 0
      ∧ (run_isr (fresh 5 1 1) (scenario T)).encoder_count = 1
      ∧ (T % 4294967296 = 0 →
          run_isr (fresh 5 1 1) ((scenario T).take 3) = fresh 5 1 1
          ∧ (run_isr (fresh 5 1 1) (scenario T)).last_interrupt_time = 6)
      ∧ (5 ≤ T % 4294967296 →
          (run_isr (fresh 5 1 1) ((scenario T).take 1)).encoder_count = 1
          ∧ run_isr (fresh 5 1 1) ((scenario T).take 3)
              = run_isr (fresh 5 1 1) ((scenario T).take 1)
          ∧ (run_isr (fresh 5 1 1) ((scenario T).take 3)).encoder_last_state = 1
          ∧ ¬ (elapsed_ms (run_isr (fresh 5 1 1) ((scenario T).take 3)) (1000 * (T + 6))
                < (run_isr (fresh 5 1 1) ((scenario T).take 3)).encoder_config.debounce_ms)
          ∧ (run_isr (fresh 5 1 1) (scenario T)).last_interrupt_time = T % 4294967296) := by
  have hmod3 : run_isr (fresh 5 1 1) ((scenario T).take 3)
      = run_isr (fresh 5 1 1) ((scenario (T % 4294967296)).take 3) := scenario_time_mod T 3
  have hmod4 : run_isr (fresh 5 1 1) (scenario T)
      = run_isr (fresh 5 1 1) (scenario (T % 4294967296)) := scenario_time_mod T 4
  refine ⟨by decide, by decide, by decide, by decide, ?_, ?_, ?_⟩
  · by_cases h5 : 5 ≤ T % 4294967296
    · obtain ⟨h1, _, _, h4⟩ := scenario_late_start T h5
      rw [h4, h1]
    · have hlt : T % 4294967296 < 5 := by omega
      rw [hmod4]
      generalize T % 4294967296 = u at hlt
      interval_cases u <;> decide
  · intro h0
    rw [hmod3, hmod4, h0]
    decide
  · intro h5
    obtain ⟨h1, _, h3, h4⟩ := scenario_late_start T h5
    refine ⟨by rw [h1], h3, by rw [h3, h1], ?_, by rw [h4, h1]⟩
    rw [h3, h1]
    unfold elapsed_ms current_time_ms
    dsimp only
    have hd : (fresh 5 1 1).encoder_config.debounce_ms = 5 := by decide
    rw [hd]
    omega

/-- Witness: with the timer at 0 the run ends with counter 1 after three
discarded edges; with the first edge 2^32 ms after boot the handler's timestamp
is 0 again and the same three edges are discarded; with the first edge at 100 ms
it is counted and `last_interrupt_time` stays 100. -/
theorem scenario_final_count_witness :
    (run_isr (fresh 5 1 1) (scenario 0)).encoder_count = 1
      ∧ run_isr (fresh 5 1 1) ((scenario 0).take 3) = fresh 5 1 1
      ∧ run_isr (fresh 5 1 1) ((scenario 4294967296).take 3) = fresh 5 1 1
      ∧ (run_isr (fresh 5 1 1) (scenario 100)).last_interrupt_time = 100 :=
  ⟨(scenario_final_count 0).2.2.2.2.1,
    ((scenario_final_count 0).2.2.2.2.2.1 (by decide)).1,
    ((scenario_final_count 4294967296).2.2.2.2.2.1 (by decide)).1,
    ((scenario_final_count 100).2.2.2.2.2.2 (by decide)).2.2.2.2⟩

/-! ## C6: first initialisation -/

theorem isr_counts_only_from_rest (s : State) (now_us : Nat) (g : Int → Nat)
    (h : (encoder_isr_handler s now_us g).encoder_count ≠ s.encoder_count) :
    s.encoder_last_state = 3 := by
  by_contra h3
  apply h
  unfold encoder_isr_handler
  dsimp only
  split_ifs <;> rfl

/-- C6: for every non-null configuration, when no session exists and every
platform setup call succeeds (for `gpio_install_isr_service` also when it
reports that the service is already installed), `ec11_encoder_init` returns
`ESP_OK` and leaves `encoder_initialized = true`, counter 0, `encoder_last_state`
equal to `2 * A + B` for the channel levels `A`, `B` in `{0, 1}` read at that
moment, and the stored configuration equal to the supplied one except that a
debounce interval of 0 is replaced by 5; `last_interrupt_time` and the poll
baseline are not touched. Hence a handler invocation on the state init leaves
can change the counter only if the phase read at init was 11. -/
theorem init_fresh_session (s : State) (cfg : ec11_encoder_config_t) (p : Platform)
    (hs : s.encoder_initialized = false)
    (h1 : p.gpio_config_encoder = ESP_OK) (h2 : p.gpio_config_button = ESP_OK)
    (h3 : p.gpio_install_isr_service = ESP_OK
      ∨ p.gpio_install_isr_service = ESP_ERR_INVALID_STATE)
    (h4 : p.gpio_isr_handler_add_a = ESP_OK) (h5 : p.gpio_isr_handler_add_b = ESP_OK)
    (ha : p.gpio_get_level cfg.gpio_a < 2) (hb : p.gpio_get_level cfg.gpio_b < 2) :
    ∃ s1 : State,
      ec11_encoder_init s (some cfg) p = some (ESP_OK, s1)
      ∧ s1.encoder_initialized = true
      ∧ s1.encoder_count = 0
      ∧ s1.encoder_last_state = 2 * p.gpio_get_level cfg.gpio_a + p.gpio_get_level cfg.gpio_b
      ∧ s1.encoder_config
          = { cfg with debounce_ms := if cfg.debounce_ms = 0 then 5 else cfg.debounce_ms }
      ∧ s1.last_interrupt_time = s.last_interrupt_time
      ∧ s1.last_encoder_count = s.last_encoder_count
      ∧ ∀ (now_us : Nat) (g : Int → Nat),
          (encoder_isr_handler s1 now_us g).encoder_count ≠ s1.encoder_count →
            p.gpio_get_level cfg.gpio_a = 1 ∧ p.gpio_get_level cfg.gpio_b = 1 := by
  have hisr : ¬ (p.gpio_install_isr_service ≠ ESP_OK
      ∧ p.gpio_install_isr_service ≠ ESP_ERR_INVALID_STATE) := by
    rintro ⟨n1, n2⟩
    rcases h3 with h | h
    · exact n1 h
    · exact n2 h
  have hcfg : (if cfg.debounce_ms = 0 then { cfg with debounce_ms := 5 } else cfg)
      = { cfg with debounce_ms := if cfg.debounce_ms = 0 then 5 else cfg.debounce_ms } := by
    split_ifs <;> rfl
  have hread : read_state
      { cfg with debounce_ms := if cfg.debounce_ms = 0 then 5 else cfg.debounce_ms }
      p.gpio_get_level
      = 2 * p.gpio_get_level cfg.gpio_a + p.gpio_get_level cfg.gpio_b :=
    read_state_of_levels _ _ ha hb
  refine ⟨{ s with
      encoder_config :=
        { cfg with debounce_ms := if cfg.debounce_ms = 0 then 5 else cfg.debounce_ms }
      encoder_last_state := 2 * p.gpio_get_level cfg.gpio_a + p.gpio_get_level cfg.gpio_b
      encoder_count := 0
      encoder_initialized := true }, ?_, rfl, rfl, rfl, rfl, rfl, rfl, ?_⟩
  · unfold ec11_encoder_init
    simp only [hs, Bool.false_eq_true, if_false, h1, h2, h4, h5, ne_eq, not_true_eq_false,
      hisr, hcfg, hread]
  · intro now_us g hne
    have h := isr_counts_only_from_rest _ now_us g hne
    dsimp only at h
    omega

/-- Witness: first init after boot on the demo pins,
debounce left at 0, channel A low and channel B high. -/
theorem init_fresh_session_witness :
    boot.encoder_initialized = false
      ∧ (ok_platform 0 1 1).gpio_get_level (demo_config 0).gpio_a < 2
      ∧ (ok_platform 0 1 1).gpio_get_level (demo_config 0).gpio_b < 2
      ∧ ∃ s1 : State,
          ec11_encoder_init boot (some (demo_config 0)) (ok_platform 0 1 1) = some (ESP_OK, s1)
          ∧ s1.encoder_initialized = true
          ∧ s1.encoder_count = 0
          ∧ s1.encoder_last_state = 1
          ∧ s1.encoder_config.debounce_ms = 5 := by
  obtain ⟨s1, hinit, hi, hc, hl, hcfg, _⟩ :=
    init_fresh_session boot (demo_config 0) (ok_platform 0 1 1) (by decide) (by decide)
      (by decide) (Or.inl (by decide)) (by decide) (by decide) (by decide) (by decide)
  exact ⟨by decide, by decide, by decide, s1, hinit, hi, hc, hl.trans (by decide),
    by rw [hcfg]; decide⟩

/-! ## C7: init on a running session -/

theorem init_sets_initialized (s s1 : State) (cfg : ec11_encoder_config_t) (p : Platform)
    (r : esp_err_t) (h : ec11_encoder_init s (some cfg) p = some (r, s1)) :
    s1.encoder_initialized = true ∧ r = ESP_OK := by
  unfold ec11_encoder_init at h
  dsimp only at h
  split_ifs at h with hi <;> simp only [Option.some.injEq, Prod.mk.injEq, reduceCtorEq] at h <;>
    (obtain ⟨hr, hs⟩ := h
     subst hs
     first | exact ⟨hi, hr.symm⟩ | exact ⟨rfl, hr.symm⟩)

/-- C7: for every state in which the session is already initialised and every
non-null configuration, `ec11_encoder_init` returns `ESP_OK` and leaves the whole
state (counter, `encoder_last_state`, `last_interrupt_time`, stored
configuration, initialised flag, poll baseline) unchanged, whatever the platform
would answer; so init followed by init, with any second configuration, gives the
same result and state as the first init alone. -/
theorem init_when_initialized (s : State) (cfg : ec11_encoder_config_t) (p : Platform)
    (h : s.encoder_initialized = true) :
    ec11_encoder_init s (some cfg) p = some (ESP_OK, s)
      ∧ (∀ (s0 : State) (cfg0 cfg2 : ec11_encoder_config_t) (p0 p2 : Platform),
          (ec11_encoder_init s0 (some cfg0) p0).bind
              (fun out => ec11_encoder_init out.2 (some cfg2) p2)
            = ec11_encoder_init s0 (some cfg0) p0) := by
  have hidem : ∀ (t : State) (c : ec11_encoder_config_t) (q : Platform),
      t.encoder_initialized = true → ec11_encoder_init t (some c) q = some (ESP_OK, t) := by
    intro t c q ht
    simp [ec11_encoder_init, ht]
  refine ⟨hidem s cfg p h, ?_⟩
  intro s0 cfg0 cfg2 p0 p2
  cases h0 : ec11_encoder_init s0 (some cfg0) p0 with
  | none => rfl
  | some out =>
    obtain ⟨r, s1⟩ := out
    obtain ⟨hi, hr⟩ := init_sets_initialized s0 s1 cfg0 p0 r h0
    subst hr
    exact hidem s1 cfg2 p2 hi

/-- Witness: a second init with another debounce
interval and other pin levels leaves the running session as it is. -/
theorem init_when_initialized_witness :
    (fresh 5 1 1).encoder_initialized = true
      ∧ ec11_encoder_init (fresh 5 1 1) (some (demo_config 8)) (ok_platform 0 0 0)
          = some (ESP_OK, fresh 5 1 1) :=
  ⟨by decide,
    (init_when_initialized (fresh 5 1 1) (demo_config 8) (ok_platform 0 0 0) (by decide)).1⟩

/-! ## C8: resetting the counter -/

/-- C8, as stated, fails at one baseline: with the poll baseline at -32768 the
poll after `ec11_encoder_reset_count` reports -32768, not the jump
`0 - (-32768) = 32768`. -/
theorem poll_after_reset_wraps_at_int16_min :
    ec11_encoder_get_count (ec11_encoder_reset_count at_int16_min_polled) = 0
      ∧ (ec11_encoder_reset_count at_int16_min_polled).last_encoder_count = -32768
      ∧ (encoder_read_cb (ec11_encoder_reset_count at_int16_min_polled) (pins 1 1 1)).2.enc_diff
          = -32768
      ∧ (encoder_read_cb (ec11_encoder_reset_count at_int16_min_polled) (pins 1 1 1)).2.enc_diff
          ≠ 0 - at_int16_min_polled.last_encoder_count := by
  decide

/-- C8 (amended): for every state, after `ec11_encoder_reset_count` the next
`ec11_encoder_get_count` returns 0 whatever the counter was, and the poll
baseline, `encoder_last_state`, `last_interrupt_time`, the stored configuration
and the initialised flag are unchanged; so the next poll with no intervening step
reports `0 - baseline` reduced to `int16_t`, which is `0 - baseline` for every
`int16_t` baseline except -32768, where the poll reports -32768. -/
theorem reset_count_effect (s : State) (g : Int → Nat) :
    ec11_encoder_get_count (ec11_encoder_reset_count s) = 0
      ∧ (ec11_encoder_reset_count s).last_encoder_count = s.last_encoder_count
      ∧ (ec11_encoder_reset_count s).encoder_last_state = s.encoder_last_state
      ∧ (ec11_encoder_reset_count s).last_interrupt_time = s.last_interrupt_time
      ∧ (ec11_encoder_reset_count s).encoder_config = s.encoder_config
      ∧ (ec11_encoder_reset_count s).encoder_initialized = s.encoder_initialized
      ∧ (encoder_read_cb (ec11_encoder_reset_count s) g).2.enc_diff
          = wrap16 (0 - s.last_encoder_count)
      ∧ (in_int16 s.last_encoder_count → s.last_encoder_count ≠ -32768 →
          (encoder_read_cb (ec11_encoder_reset_count s) g).2.enc_diff
            = 0 - s.last_encoder_count)
      ∧ (s.last_encoder_count = -32768 →
          (encoder_read_cb (ec11_encoder_reset_count s) g).2.enc_diff = -32768) := by
  refine ⟨rfl, rfl, rfl, rfl, rfl, rfl, rfl, ?_, ?_⟩
  · intro hin hne
    rw [read_cb_diff]
    unfold in_int16 at hin
    unfold ec11_encoder_reset_count wrap16
    dsimp only
    omega
  · intro hmin
    rw [read_cb_diff]
    unfold ec11_encoder_reset_count wrap16
    dsimp only
    omega

/-- Witness: counter and baseline at 32767, reset, poll
reports -32767. -/
theorem reset_count_effect_witness :
    in_int16 at_int16_max.last_encoder_count
      ∧ at_int16_max.last_encoder_count ≠ -32768
      ∧ (encoder_read_cb (ec11_encoder_reset_count at_int16_max) (pins 1 1 1)).2.enc_diff
          = -32767 :=
  ⟨by decide, by decide,
    ((reset_count_effect at_int16_max (pins 1 1 1)).2.2.2.2.2.2.2.1 (by decide)
      (by decide)).trans (by decide)⟩

/-! ## C9: button polarity -/

/-- C9: for every initialised session, every button line level and both polarity
settings, `ec11_encoder_get_button_state` and the pressed/released state written
by `encoder_read_cb` agree, and both report pressed if and only if
`button_active_low` is true and the line reads 0, or `button_active_low` is false
and the line reads 1. -/
theorem button_state_polarity (s : State) (g : Int → Nat)
    (h : s.encoder_initialized = true) :
    (ec11_encoder_get_button_state s g = true
        ↔ (encoder_read_cb s g).2.state = lv_indev_state_t.LV_INDEV_STATE_PRESSED)
      ∧ (ec11_encoder_get_button_state s g = false
        ↔ (encoder_read_cb s g).2.state = lv_indev_state_t.LV_INDEV_STATE_RELEASED)
      ∧ (ec11_encoder_get_button_state s g = true
        ↔ (s.encoder_config.button_active_low = true ∧ g s.encoder_config.gpio_button = 0)
          ∨ (s.encoder_config.button_active_low = false
              ∧ g s.encoder_config.gpio_button = 1)) := by
  unfold ec11_encoder_get_button_state encoder_read_cb
  simp only [h, Bool.not_true, Bool.false_eq_true, if_false]
  cases hal : s.encoder_config.button_active_low <;>
    cases hb : (g s.encoder_config.gpio_button == 1) <;>
    cases hb0 : (g s.encoder_config.gpio_button == 0) <;>
    simp_all

/-- Witness: active-low button on the demo pins with
the line low reads as pressed through both paths. -/
theorem button_state_polarity_witness :
    (fresh 5 1 1).encoder_initialized = true
      ∧ ec11_encoder_get_button_state (fresh 5 1 1) (pins 1 1 0) = true
      ∧ (encoder_read_cb (fresh 5 1 1) (pins 1 1 0)).2.state
          = lv_indev_state_t.LV_INDEV_STATE_PRESSED :=
  ⟨by decide, by decide,
    (button_state_polarity (fresh 5 1 1) (pins 1 1 0) (by decide)).1.mp (by decide)⟩

/-! ## C10: operations without a session -/

/-- C10, as stated, fails after a session that counted a step: once
`ec11_encoder_deinit` has run there is no session, yet
`ec11_encoder_get_count` returns 1, not 0, and `ec11_encoder_reset_count`
changes the state. -/
theorem get_count_after_deinit_is_not_zero :
    after_step_and_deinit.encoder_initialized = false
      ∧ ec11_encoder_get_count after_step_and_deinit = 1
      ∧ ec11_encoder_get_count after_step_and_deinit ≠ 0
      ∧ ec11_encoder_reset_count after_step_and_deinit ≠ after_step_and_deinit := by
  decide

/-- C10 (amended): whenever the session does not exist,
`ec11_encoder_get_button_state` returns not-pressed whatever the line level and
polarity, and `ec11_encoder_deinit` returns `ESP_OK` leaving the state unchanged;
`ec11_encoder_get_count` returns the stored counter, which is 0 before the first
init and, after deinit, the value the session left; `ec11_encoder_reset_count`
sets the counter to 0 and changes nothing else. -/
theorem no_session_operations (s : State) (g : Int → Nat)
    (h : s.encoder_initialized = false) :
    ec11_encoder_get_button_state s g = false
      ∧ ec11_encoder_deinit s = (ESP_OK, s)
      ∧ ec11_encoder_get_count s = s.encoder_count
      ∧ ec11_encoder_get_count boot = 0
      ∧ (∀ (s0 : State) (es : List Edge),
          (ec11_encoder_deinit (run_isr s0 es)).2.encoder_initialized = false
          ∧ ec11_encoder_get_count (ec11_encoder_deinit (run_isr s0 es)).2
              = (run_isr s0 es).encoder_count)
      ∧ ec11_encoder_reset_count s = { s with encoder_count := 0 }
      ∧ (s.encoder_count = 0 → ec11_encoder_reset_count s = s) := by
  refine ⟨?_, ?_, rfl, rfl, ?_, rfl, ?_⟩
  · simp [ec11_encoder_get_button_state, h]
  · simp [ec11_encoder_deinit, h]
  · intro s0 es
    unfold ec11_encoder_deinit ec11_encoder_get_count
    cases hi : (run_isr s0 es).encoder_initialized <;> simp [hi]
  · intro h0
    unfold ec11_encoder_reset_count
    rw [← h0]

/-- Witness: the state left by init, one clockwise
step and deinit. -/
theorem no_session_operations_witness :
    after_step_and_deinit.encoder_initialized = false
      ∧ ec11_encoder_get_button_state after_step_and_deinit (pins 1 1 0) = false
      ∧ ec11_encoder_deinit after_step_and_deinit = (ESP_OK, after_step_and_deinit) :=
  ⟨by decide,
    (no_session_operations after_step_and_deinit (pins 1 1 0) (by decide)).1,
    (no_session_operations after_step_and_deinit (pins 1 1 0) (by decide)).2.1⟩

/-! ## Sessions: the debounce interval is never zero while initialised -/

theorem init_debounce_pos (s s1 : State) (config : Option ec11_encoder_config_t)
    (p : Platform) (r : esp_err_t)
    (hinv : s.encoder_initialized = true → 0 < s.encoder_config.debounce_ms)
    (h : ec11_encoder_init s config p = some (r, s1)) :
    s1.encoder_initialized = true → 0 < s1.encoder_config.debounce_ms := by
  cases config with
  | none =>
    simp only [ec11_encoder_init, Option.some.injEq, Prod.mk.injEq] at h
    rw [← h.2]
    exact hinv
  | some c =>
    unfold ec11_encoder_init at h
    dsimp only at h
    split_ifs at h with hi <;> simp only [Option.some.injEq, Prod.mk.injEq, reduceCtorEq] at h <;>
      (obtain ⟨_, hs⟩ := h
       subst hs
       first
         | exact hinv
         | (intro _
            dsimp only
            omega))

theorem apply_op_debounce_pos (s s1 : State) (o : Op)
    (hinv : s.encoder_initialized = true → 0 < s.encoder_config.debounce_ms)
    (h : apply_op s o = some s1) :
    s1.encoder_initialized = true → 0 < s1.encoder_config.debounce_ms := by
  cases o with
  | init config p =>
    simp only [apply_op] at h
    cases hi : ec11_encoder_init s config p with
    | none =>
      rw [hi] at h
      simp at h
    | some out =>
      rw [hi] at h
      simp only [Option.map_some', Option.some.injEq] at h
      subst h
      exact init_debounce_pos s out.2 config p out.1 hinv hi
  | edge e =>
    simp only [apply_op, Option.some.injEq] at h
    subst h
    split_ifs with hi
    · rw [(isr_frame s e.now_us e.gpio_get_level).1, isr_config]
      exact hinv
    · exact hinv
  | poll g =>
    simp only [apply_op, Option.some.injEq] at h
    subst h
    exact hinv
  | reset_count =>
    simp only [apply_op, Option.some.injEq] at h
    subst h
    exact hinv
  | deinit =>
    simp only [apply_op, Option.some.injEq] at h
    subst h
    unfold ec11_encoder_deinit
    split_ifs with hi
    · exact hinv
    · intro hf
      simp at hf

theorem run_ops_debounce_pos (ops : List Op) : ∀ (s s1 : State),
    (s.encoder_initialized = true → 0 < s.encoder_config.debounce_ms) →
    run_ops s ops = some s1 →
    s1.encoder_initialized = true → 0 < s1.encoder_config.debounce_ms := by
  induction ops with
  | nil =>
    intro s s1 hinv h
    simp only [run_ops, Option.some.injEq] at h
    subst h
    exact hinv
  | cons o os ih =>
    intro s s1 hinv h
    simp only [run_ops, Option.bind_eq_some] at h
    obtain ⟨s2, h2, h3⟩ := h
    exact ih s2 s1 (apply_op_debounce_pos s s2 o hinv h2) h3

theorem isr_ccw (s : State) (now_us : Nat) (g : Int → Nat)
    (hgate : ¬ elapsed_ms s now_us < s.encoder_config.debounce_ms)
    (h3 : s.encoder_last_state = 3) (h2 : read_state s.encoder_config g = 2) :
    encoder_isr_handler s now_us g
      = { s with
          encoder_count := wrap16 (s.encoder_count - 1)
          last_interrupt_time := current_time_ms now_us
          encoder_last_state := 2 } := by
  simp [encoder_isr_handler, hgate, h3, h2]

theorem isr_at_rest_no_step (s : State) (now_us : Nat) (g : Int → Nat)
    (hgate : ¬ elapsed_ms s now_us < s.encoder_config.debounce_ms)
    (h3 : s.encoder_last_state = 3) (h1 : read_state s.encoder_config g ≠ 1)
    (h2 : read_state s.encoder_config g ≠ 2) :
    encoder_isr_handler s now_us g
      = { s with encoder_last_state := read_state s.encoder_config g } := by
  simp [encoder_isr_handler, hgate, h3, h1, h2]

theorem current_time_ne_of_elapsed (s : State) (now_us : Nat)
    (hd : 0 < s.encoder_config.debounce_ms)
    (hgate : ¬ elapsed_ms s now_us < s.encoder_config.debounce_ms) :
    current_time_ms now_us ≠ s.last_interrupt_time := by
  unfold elapsed_ms at hgate
  have hlt : current_time_ms now_us < 4294967296 := by
    unfold current_time_ms
    omega
  omega

theorem wrap16_succ_ne (x : Int) : wrap16 (x + 1) ≠ x := by
  unfold wrap16
  omega

theorem wrap16_pred_ne (x : Int) : wrap16 (x - 1) ≠ x := by
  unfold wrap16
  omega

/-! ## C11: what an edge that passes the gate updates -/

/-- C11: for every edge that passes the debounce gate, `encoder_isr_handler` sets
`encoder_last_state` to the newly read phase whether or not a step is counted;
it sets `last_interrupt_time` to the current time when a step is counted (the
counter then changes) and leaves `last_interrupt_time` and the counter unchanged
otherwise. So `last_interrupt_time` changes in an invocation if and only if the
counter changes in it, whenever the stored debounce interval is not zero, which
holds in every initialised state the component reaches from boot. -/
theorem isr_accepted_edge_updates (s : State) (now_us : Nat) (g : Int → Nat)
    (hgate : ¬ elapsed_ms s now_us < s.encoder_config.debounce_ms) :
    (encoder_isr_handler s now_us g).encoder_last_state = read_state s.encoder_config g
      ∧ (s.encoder_last_state = 3
          ∧ (read_state s.encoder_config g = 1 ∨ read_state s.encoder_config g = 2) →
          (encoder_isr_handler s now_us g).last_interrupt_time = current_time_ms now_us
          ∧ (encoder_isr_handler s now_us g).encoder_count ≠ s.encoder_count)
      ∧ (¬ (s.encoder_last_state = 3
          ∧ (read_state s.encoder_config g = 1 ∨ read_state s.encoder_config g = 2)) →
          (encoder_isr_handler s now_us g).last_interrupt_time = s.last_interrupt_time
          ∧ (encoder_isr_handler s now_us g).encoder_count = s.encoder_count)
      ∧ (0 < s.encoder_config.debounce_ms →
          ((encoder_isr_handler s now_us g).last_interrupt_time ≠ s.last_interrupt_time
            ↔ (encoder_isr_handler s now_us g).encoder_count ≠ s.encoder_count))
      ∧ (∀ ops : List Op, run_ops boot ops = some s → s.encoder_initialized = true →
          ((encoder_isr_handler s now_us g).last_interrupt_time ≠ s.last_interrupt_time
            ↔ (encoder_isr_handler s now_us g).encoder_count ≠ s.encoder_count)) := by
  have key : (encoder_isr_handler s now_us g).encoder_last_state = read_state s.encoder_config g
      ∧ (s.encoder_last_state = 3
          ∧ (read_state s.encoder_config g = 1 ∨ read_state s.encoder_config g = 2) →
          (encoder_isr_handler s now_us g).last_interrupt_time = current_time_ms now_us
          ∧ (encoder_isr_handler s now_us g).encoder_count ≠ s.encoder_count)
      ∧ (¬ (s.encoder_last_state = 3
          ∧ (read_state s.encoder_config g = 1 ∨ read_state s.encoder_config g = 2)) →
          (encoder_isr_handler s now_us g).last_interrupt_time = s.last_interrupt_time
          ∧ (encoder_isr_handler s now_us g).encoder_count = s.encoder_count) := by
    by_cases h3 : s.encoder_last_state = 3
    · by_cases h1 : read_state s.encoder_config g = 1
      · rw [isr_cw s now_us g hgate h3 h1]
        exact ⟨h1.symm, fun _ => ⟨rfl, wrap16_succ_ne _⟩, fun hn => absurd ⟨h3, Or.inl h1⟩ hn⟩
      · by_cases h2 : read_state s.encoder_config g = 2
        · rw [isr_ccw s now_us g hgate h3 h2]
          exact ⟨h2.symm, fun _ => ⟨rfl, wrap16_pred_ne _⟩, fun hn => absurd ⟨h3, Or.inr h2⟩ hn⟩
        · rw [isr_at_rest_no_step s now_us g hgate h3 h1 h2]
          refine ⟨rfl, fun hc => ?_, fun _ => ⟨rfl, rfl⟩⟩
          rcases hc.2 with h | h
          · exact absurd h h1
          · exact absurd h h2
    · rw [isr_not_at_rest s now_us g hgate h3]
      exact ⟨rfl, fun hc => absurd hc.1 h3, fun _ => ⟨rfl, rfl⟩⟩
  obtain ⟨k1, k2, k3⟩ := key
  have hiff : 0 < s.encoder_config.debounce_ms →
      ((encoder_isr_handler s now_us g).last_interrupt_time ≠ s.last_interrupt_time
        ↔ (encoder_isr_handler s now_us g).encoder_count ≠ s.encoder_count) := by
    intro hd
    by_cases hc : s.encoder_last_state = 3
        ∧ (read_state s.encoder_config g = 1 ∨ read_state s.encoder_config g = 2)
    · obtain ⟨ht, hcount⟩ := k2 hc
      constructor
      · intro _
        exact hcount
      · intro _
        rw [ht]
        exact current_time_ne_of_elapsed s now_us hd hgate
    · obtain ⟨ht, hcount⟩ := k3 hc
      constructor
      · intro hne
        exact absurd ht hne
      · intro hne
        exact absurd hcount hne
  refine ⟨k1, k2, k3, hiff, ?_⟩
  intro ops hreach hinit
  exact hiff (run_ops_debounce_pos ops boot s (by decide) hreach hinit)

/-- Witness: in a fresh session at rest (debounce 5 ms) an edge at 10 ms showing
phase 01 passes the gate, is counted, and moves `last_interrupt_time` to 10 and
`encoder_last_state` to 1. -/
theorem isr_accepted_edge_updates_witness :
    ¬ (elapsed_ms (fresh 5 1 1) 10000 < (fresh 5 1 1).encoder_config.debounce_ms)
      ∧ run_ops boot [Op.init (some (demo_config 5)) (ok_platform 1 1 1)] = some (fresh 5 1 1)
      ∧ (encoder_isr_handler (fresh 5 1 1) 10000 (pins 0 1 1)).encoder_last_state = 1
      ∧ (encoder_isr_handler (fresh 5 1 1) 10000 (pins 0 1 1)).last_interrupt_time = 10
      ∧ ((encoder_isr_handler (fresh 5 1 1) 10000 (pins 0 1 1)).last_interrupt_time
            ≠ (fresh 5 1 1).last_interrupt_time
          ↔ (encoder_isr_handler (fresh 5 1 1) 10000 (pins 0 1 1)).encoder_count
            ≠ (fresh 5 1 1).encoder_count) :=
  ⟨by decide, by decide,
    ((isr_accepted_edge_updates (fresh 5 1 1) 10000 (pins 0 1 1) (by decide)).1).trans
      (by decide),
    (((isr_accepted_edge_updates (fresh 5 1 1) 10000 (pins 0 1 1) (by decide)).2.1
      (by decide)).1).trans (by decide),
    (isr_accepted_edge_updates (fresh 5 1 1) 10000 (pins 0 1 1) (by decide)).2.2.2.2
      [Op.init (some (demo_config 5)) (ok_platform 1 1 1)] (by decide) (by decide)⟩

/-! ## C12: deinit followed by init -/

theorem deinit_clears_flag_only (s : State) :
    (ec11_encoder_deinit s).2 = { s with encoder_initialized := false } := by
  unfold ec11_encoder_deinit
  cases hi : s.encoder_initialized
  · simp only [Bool.not_false, if_true]
    cases s
    simp_all
  · simp

theorem init_from_no_session (s s1 : State) (cfg : ec11_encoder_config_t) (p : Platform)
    (r : esp_err_t) (hs : s.encoder_initialized = false)
    (h : ec11_encoder_init s (some cfg) p = some (r, s1)) :
    r = ESP_OK
      ∧ s1 = { s with
          encoder_config :=
            { cfg with debounce_ms := if cfg.debounce_ms = 0 then 5 else cfg.debounce_ms }
          encoder_last_state := read_state cfg p.gpio_get_level
          encoder_count := 0
          encoder_initialized := true } := by
  unfold ec11_encoder_init at h
  dsimp only at h
  rw [hs] at h
  simp only [Bool.false_eq_true, if_false] at h
  split_ifs at h <;> simp only [Option.some.injEq, Prod.mk.injEq, reduceCtorEq] at h <;>
    (obtain ⟨hr, hs1⟩ := h
     subst hs1
     exact ⟨hr.symm, by simp_all [read_state]⟩)

/-- C12: `ec11_encoder_deinit` followed by a successful `ec11_encoder_init`
zeroes the counter and reseeds `encoder_last_state` from the pins, but leaves the
poll baseline `last_encoder_count` and `last_interrupt_time` as the previous
session left them: for every baseline `b`, the first poll after
re-initialisation with no accepted step in between reports `0 - b` as an
`int16_t` value, which is 0 only when `b` is 0. -/
theorem reinit_keeps_poll_baseline (s s1 : State) (cfg : ec11_encoder_config_t)
    (p : Platform) (r : esp_err_t) (g : Int → Nat)
    (hinit : ec11_encoder_init (ec11_encoder_deinit s).2 (some cfg) p = some (r, s1)) :
    r = ESP_OK
      ∧ s1.encoder_initialized = true
      ∧ s1.encoder_count = 0
      ∧ s1.encoder_last_state = read_state cfg p.gpio_get_level
      ∧ s1.last_encoder_count = s.last_encoder_count
      ∧ s1.last_interrupt_time = s.last_interrupt_time
      ∧ (encoder_read_cb s1 g).2.enc_diff = wrap16 (0 - s.last_encoder_count)
      ∧ (∀ es : List Edge, cw_steps s1 es = 0 → ccw_steps s1 es = 0 →
          (encoder_read_cb (run_isr s1 es) g).2.enc_diff = wrap16 (0 - s.last_encoder_count))
      ∧ (in_int16 s.last_encoder_count →
          ((encoder_read_cb s1 g).2.enc_diff = 0 ↔ s.last_encoder_count = 0)) := by
  have hflag : (ec11_encoder_deinit s).2.encoder_initialized = false := by
    rw [deinit_clears_flag_only]
  obtain ⟨hr, hs1⟩ := init_from_no_session _ s1 cfg p r hflag hinit
  rw [deinit_clears_flag_only] at hs1
  dsimp only at hs1
  have hcount : s1.encoder_count = 0 := by rw [hs1]
  have hbase : s1.last_encoder_count = s.last_encoder_count := by rw [hs1]
  refine ⟨hr, by rw [hs1], hcount, by rw [hs1], hbase, by rw [hs1], ?_, ?_, ?_⟩
  · rw [read_cb_diff, hcount, hbase]
  · intro es hcw hccw
    have hmod := run_isr_count_mod s1 es
    have hrange := run_isr_count_in_int16 s1 es (by rw [hcount]; decide)
    have hframe := (run_isr_frame s1 es).1
    rw [hcw, hccw, hcount] at hmod
    rw [read_cb_diff, hframe, hbase]
    have hzero : (run_isr s1 es).encoder_count = 0 := by
      unfold in_int16 at hrange
      simp only [Nat.cast_zero] at hmod
      omega
    rw [hzero]
  · intro hin
    rw [read_cb_diff, hcount, hbase]
    unfold in_int16 at hin
    unfold wrap16
    constructor <;> intro h <;> omega

/-- Witness: a first session counts and polls three steps (baseline 3); after
deinit and a second init the counter is 0 and the first poll reports -3. -/
theorem reinit_keeps_poll_baseline_witness :
    ec11_encoder_init (ec11_encoder_deinit polled_at_three).2 (some (demo_config 8))
        (ok_platform 1 0 1) = some (ESP_OK, after_reinit)
      ∧ run_ops boot first_session_ops = some polled_at_three
      ∧ polled_at_three.last_encoder_count = 3
      ∧ after_reinit.encoder_count = 0
      ∧ (encoder_read_cb after_reinit (pins 1 0 1)).2.enc_diff = -3 :=
  ⟨by decide, by decide, by decide,
    (reinit_keeps_poll_baseline polled_at_three after_reinit (demo_config 8)
      (ok_platform 1 0 1) ESP_OK (pins 1 0 1) (by decide)).2.2.1,
    ((reinit_keeps_poll_baseline polled_at_three after_reinit (demo_config 8)
      (ok_platform 1 0 1) ESP_OK (pins 1 0 1) (by decide)).2.2.2.2.2.2.1).trans (by decide)⟩

end Ec11
